import Mathlib

/-!
Verification of the `kiscollect` command-line front end (src/kis/kiscollect.py).

The file shallowly embeds the `__main__` block of kiscollect.py: argument
truthiness follows Python semantics (None and the empty string / empty list are
falsy), the control flow is translated branch by branch into a function that
returns the ordered trace of observable effects (messages printed to stderr,
temporary-directory creation/removal, producer initialisation, logging
configuration, producer start/join, console loop) together with the control
outcome (normal completion, `sys.exit(code)`, or a raised Python exception).
The outer `try/except Exception` handler of the script is modelled on top of
that body.  Numeric logging levels follow the Python `logging` module:
DEBUG = 10, INFO = 20, WARNING = 30.
-/

namespace KisCollect

/-- Python exceptions raised by the configuration-validation block of
kiscollect.py (lines 426-439): `ValueError` and `FileNotFoundError`, each
carrying its message. -/
inductive PyExc where
  | valueError (msg : String)
  | fileNotFoundError (msg : String)
deriving DecidableEq, Repr

/-- Observable effects of the `__main__` block, in program order. -/
inductive Event where
  | printStderr (msg : String)
  | printWorkspaces
  | tempDirCreated
  | tempDirRemoved
  | producerInit (working_dir : String)
  | configureLogging (level : Nat)
  | producerStartJoin
  | consoleLoop
  | printTraceback (e : PyExc)
deriving DecidableEq, Repr

/-- How the `try`-body of `__main__` ends: it runs to the end, calls
`sys.exit(code)` (a `SystemExit`, not caught by `except Exception`), or raises
an ordinary exception. -/
inductive Outcome where
  | finished
  | exited (code : Nat)
  | raised (e : PyExc)
deriving DecidableEq, Repr

/-- The parsed command-line arguments of kiscollect.py (argparse namespace).
`none` is Python `None` (the argparse default for the optional options);
`store_true` switches are `Bool`. -/
structure Args where
  testing : Bool := false
  http_proxy : Option String := none
  print_commands : Bool := false
  vhost : Option String := none
  tld : Bool := false
  debug : Bool := false
  autostart : Bool := false
  strict : Bool := false
  restart : Option (List String) := none
  analyze : Bool := false
  filter : Option (List String) := none
  threads : Int := 1
  workspace : String
  list : Bool := false
  output_dir : Option String := none
  cookies : Option (List String) := none
  user_agent : Option String := none
  combo_file : Option String := none
  password_file : Option String := none
  user_file : Option String := none
  user : Option String := none
  domain : Option String := none
  password : Option String := none
  hashes : Bool := false
  wordlist_files : Option (List String) := none
  delay_min : Option Int := none
  delay_max : Option Int := none
  timeout : Option Int := none
  dns_server : Option String := none
  proxychains : Bool := false
  continue_ : Bool := false
deriving Repr

/-- The ambient process state that `__main__` consults: the effective user id
(`os.geteuid()`), `sys.argv[0]`, the workspaces present in the catalogue, the
filesystem predicates `os.path.exists` and `os.path.isdir`, and the name of the
temporary directory created by `tempfile.TemporaryDirectory()`. -/
structure Env where
  euid : Nat
  argv0 : String
  workspaces : List String
  path_exists : String → Bool
  isdir : String → Bool
  temp_dir : String

/-- Python truthiness of an optional string: `None` and `""` are falsy. -/
def truthyS : Option String → Bool
  | none => false
  | some s => s ≠ ""

/-- Python truthiness of an optional list: `None` and `[]` are falsy. -/
def truthyL : Option (List String) → Bool
  | none => false
  | some l => l ≠ []

/-- The underlying string of an optional string argument (`""` when absent). -/
def optS (o : Option String) : String := o.getD ""

/-- Message of kiscollect.py line 408-409, with `sys.argv[0]` interpolated. -/
def privilegeMsg (argv0 : String) : String :=
  argv0 ++ " must be executed with root privileges. afterwards, it is possible to execute individual commands with lower privileged users like 'nobody'"

/-- Message of kiscollect.py line 419. -/
def outputDirMsg (d : String) : String :=
  "output directory '" ++ d ++ "' does not exist!"

/-- Message of the `ValueError` of kiscollect.py line 427. -/
def userExclusionMsg : String :=
  "option --user-file and --user cannot be used together."

/-- Message of the `ValueError` of kiscollect.py line 429. -/
def passwordExclusionMsg : String :=
  "option --password-file and --password cannot be used together."

/-- Message of the `FileNotFoundError` of kiscollect.py line 433. -/
def wordlistMsg (f : String) : String :=
  "wordlist '" ++ f ++ "' not found."

/-- Message of the `FileNotFoundError` of kiscollect.py line 435. -/
def userFileMsg (f : String) : String :=
  "user file '" ++ f ++ "' not found."

/-- Message of the `FileNotFoundError` of kiscollect.py line 437. -/
def passwordFileMsg (f : String) : String :=
  "password file '" ++ f ++ "' not found."

/-- Message of the `FileNotFoundError` of kiscollect.py line 439. -/
def comboFileMsg (f : String) : String :=
  "combo file '" ++ f ++ "' not found."

/-- The first wordlist file of `--wordlist-files` that does not exist, in list
order — the one whose `FileNotFoundError` the loop of kiscollect.py lines
430-433 raises (`if args.wordlist_files:` is Python truthiness). -/
def firstMissingWordlist (env : Env) (args : Args) : Option String :=
  if truthyL args.wordlist_files then
    (args.wordlist_files.getD []).find? (fun f => !env.path_exists f)
  else none

/-- The configuration-validation block of kiscollect.py lines 426-439, run
after the workspace lookup: returns the first exception it raises, or `none`
when every check passes. -/
def validation (env : Env) (args : Args) : Option PyExc :=
  if truthyS args.user && truthyS args.user_file then
    some (.valueError userExclusionMsg)
  else if truthyS args.password && truthyS args.password_file then
    some (.valueError passwordExclusionMsg)
  else
    match firstMissingWordlist env args with
    | some f => some (.fileNotFoundError (wordlistMsg f))
    | none =>
      if truthyS args.user_file && !env.path_exists (optS args.user_file) then
        some (.fileNotFoundError (userFileMsg (optS args.user_file)))
      else if truthyS args.password_file && !env.path_exists (optS args.password_file) then
        some (.fileNotFoundError (passwordFileMsg (optS args.password_file)))
      else if truthyS args.combo_file && !env.path_exists (optS args.combo_file) then
        some (.fileNotFoundError (comboFileMsg (optS args.combo_file)))
      else none

/-- The log-level selection of kiscollect.py lines 440-444, with the numeric
values of the Python logging module: `log_level = logging.INFO` (20), then
`--analyze` overwrites it with `logging.WARNING` (30), then `--debug`
overwrites it with `logging.DEBUG` (10). -/
def log_level (args : Args) : Nat :=
  let l := 20
  let l := if args.analyze then 30 else l
  let l := if args.debug then 10 else l
  l

/-- Modelled from the spec: `Engine.get_workspace` lives in `database/utils`,
which is not part of src/.  Per the spec, an unknown workspace is a
configuration error that "fail[s] fast ... with a specific user-facing message
per violated constraint", so the lookup succeeds exactly when the named
workspace is in the catalogue and emits a diagnostic naming the unknown
workspace otherwise. -/
def get_workspace (env : Env) (name : String) : Bool :=
  env.workspaces.contains name

/-- Modelled from the spec: the user-facing diagnostic that
`Engine.get_workspace` (not in src/) emits for an unknown workspace. -/
def workspaceMsg (name : String) : String :=
  "workspace '" ++ name ++ "' does not exist"

/-- kiscollect.py lines 422-458, after the working directory `wd` has been
fixed: `producer.init`, the workspace lookup (`sys.exit(1)` when it fails),
the validation block (raises on failure), the log-level selection with
`logging.basicConfig` only when `--print-commands` is absent, and finally
either `producer.start(); producer.join()` (print mode) or
`KisCollectConsole(...).cmdloop()`. -/
def afterOutputDir (env : Env) (args : Args) (wd : String) : List Event × Outcome :=
  if !get_workspace env args.workspace then
    ([Event.producerInit wd, Event.printStderr (workspaceMsg args.workspace)], .exited 1)
  else
    match validation env args with
    | some e => ([Event.producerInit wd], .raised e)
    | none =>
      if args.print_commands then
        ([Event.producerInit wd, Event.producerStartJoin], .finished)
      else
        ([Event.producerInit wd,
          Event.configureLogging (log_level args),
          Event.consoleLoop], .finished)

/-- The body of the `with tempfile.TemporaryDirectory()` block (kiscollect.py
lines 415-458): the `-o` handling of lines 418-421 (`if args.output_dir and
not os.path.isdir(args.output_dir)` — an empty string is falsy, so the check
is skipped and the temporary directory is used), then the rest of the run with
the chosen working directory. -/
def tempBody (env : Env) (args : Args) : List Event × Outcome :=
  match args.output_dir with
  | none => afterOutputDir env args env.temp_dir
  | some d =>
    if d = "" then afterOutputDir env args env.temp_dir
    else if !env.isdir d then
      ([Event.printStderr (outputDirMsg d)], .exited 1)
    else afterOutputDir env args d

/-- The working directory the run ends up with: `arguments["output_dir"] =
args.output_dir if args.output_dir else temp_dir` (kiscollect.py line 421). -/
def working_dir (env : Env) (args : Args) : String :=
  match args.output_dir with
  | none => env.temp_dir
  | some d => if d = "" then env.temp_dir else d

/-- Whether the `-o` check of kiscollect.py lines 418-420 lets the run
proceed. -/
def outputDirOk (env : Env) (args : Args) : Bool :=
  match args.output_dir with
  | none => true
  | some d => d = "" || env.isdir d

/-- The `try`-body of `__main__` (kiscollect.py lines 406-458): the privilege
check, the `--list` branch, then the temporary-directory block.  The
`with tempfile.TemporaryDirectory()` context removes the directory on every
exit from the block — normal completion, `sys.exit`, or a raised exception —
so `tempDirRemoved` follows the inner trace unconditionally. -/
def mainBody (env : Env) (args : Args) : List Event × Outcome :=
  if (env.euid != 0) && !args.print_commands then
    ([Event.printStderr (privilegeMsg env.argv0)], .exited 1)
  else if args.list then
    ([Event.printWorkspaces], .exited 1)
  else
    let r := tempBody env args
    (Event.tempDirCreated :: r.1 ++ [Event.tempDirRemoved], r.2)

/-- The whole `__main__` block (kiscollect.py lines 63-460): the `try`-body
wrapped in `except Exception as e: traceback.print_exc(file=sys.stderr)`.
`sys.exit` raises `SystemExit`, which does not derive from `Exception`, so it
passes through and sets the process exit status; a caught exception has its
traceback printed, after which the script falls off the end and the process
exits with status 0. -/
def kiscollectMain (env : Env) (args : Args) : List Event × Nat :=
  match (mainBody env args).2 with
  | .finished => ((mainBody env args).1, 0)
  | .exited c => ((mainBody env args).1, c)
  | .raised e => ((mainBody env args).1 ++ [Event.printTraceback e], 0)

/-- Modelled from the spec: the `CommandStatus` enum lives in
`database.model`, which is not part of src/.  The spec's lifecycle states are
`pending → running → {completed | failed | terminated}`. -/
inductive CommandStatus where
  | pending
  | running
  | completed
  | failed
  | terminated
deriving DecidableEq, Repr

/-- The Python `Enum.name` of a `CommandStatus` member (the member's own
name, by Python Enum semantics). -/
def CommandStatus.name : CommandStatus → String
  | .pending => "pending"
  | .running => "running"
  | .completed => "completed"
  | .failed => "failed"
  | .terminated => "terminated"

/-- The `choices` list of the `--restart` option (kiscollect.py lines
314-316): `[CommandStatus.failed.name, CommandStatus.terminated.name,
CommandStatus.completed.name]`. -/
def restartChoices : List String :=
  [CommandStatus.failed.name, CommandStatus.terminated.name, CommandStatus.completed.name]

/-- argparse semantics of a `choices=...`-restricted option with `nargs=+`:
the invocation is accepted only when at least one value is given and every
value is one of the choices; otherwise argparse rejects the command line
before any of `__main__`'s logic after `parser.parse_args()` runs. -/
def restartAccepted (values : List String) : Bool :=
  (values ≠ ([] : List String)) && values.all (fun v => restartChoices.contains v)

/-- Both mutual-exclusion checks of kiscollect.py lines 426-429 pass. -/
def mutualOk (args : Args) : Bool :=
  !(truthyS args.user && truthyS args.user_file) &&
  !(truthyS args.password && truthyS args.password_file)

/-- Every file referenced by `--wordlist-files`, `--user-file`,
`--password-file`, `--combo-file` exists (the condition under which the
file-existence checks of kiscollect.py lines 430-439 all pass). -/
def referencedFilesExist (env : Env) (args : Args) : Bool :=
  (if truthyL args.wordlist_files then (args.wordlist_files.getD []).all env.path_exists else true) &&
  (!truthyS args.user_file || env.path_exists (optS args.user_file)) &&
  (!truthyS args.password_file || env.path_exists (optS args.password_file)) &&
  (!truthyS args.combo_file || env.path_exists (optS args.combo_file))

/-- `f` is one of the files referenced by the invocation's file options. -/
def referencedFile (args : Args) (f : String) : Prop :=
  (truthyL args.wordlist_files = true ∧ f ∈ args.wordlist_files.getD []) ∨
  (truthyS args.user_file = true ∧ f = optS args.user_file) ∨
  (truthyS args.password_file = true ∧ f = optS args.password_file) ∨
  (truthyS args.combo_file = true ∧ f = optS args.combo_file)

/-- A concrete root environment with a one-workspace catalogue and a
filesystem on which every path exists. -/
def envRoot : Env :=
  { euid := 0, argv0 := "kiscollect.py", workspaces := ["ws"],
    path_exists := fun _ => true, isdir := fun _ => true, temp_dir := "/tmp/kis" }

/-- The same environment run by an unprivileged user (euid 1000). -/
def envUser : Env :=
  { envRoot with euid := 1000 }

/-- A minimal invocation: only the required workspace argument. -/
def argsBase : Args := { workspace := "ws" }

theorem mainBody_reach (env : Env) (args : Args)
    (hpriv : env.euid = 0 ∨ args.print_commands = true)
    (hlist : args.list = false)
    (hout : outputDirOk env args = true) :
    mainBody env args =
      (Event.tempDirCreated :: (afterOutputDir env args (working_dir env args)).1
         ++ [Event.tempDirRemoved],
       (afterOutputDir env args (working_dir env args)).2) := by
  have hcond : ((env.euid != 0) && !args.print_commands) = false := by
    rcases hpriv with h | h <;> simp [h]
  have hbody : tempBody env args = afterOutputDir env args (working_dir env args) := by
    unfold tempBody working_dir
    unfold outputDirOk at hout
    cases h : args.output_dir with
    | none => simp
    | some d =>
      rw [h] at hout
      by_cases hd : d = ""
      · simp [hd]
      · simp only [hd, if_false]
        have hdir : env.isdir d = true := by
          simpa [hd] using hout
        simp [hdir]
  unfold mainBody
  rw [hcond, hlist]
  simp [hbody]

theorem firstMissingWordlist_eq_none (env : Env) (args : Args) :
    firstMissingWordlist env args = none ↔
      (if truthyL args.wordlist_files then (args.wordlist_files.getD []).all env.path_exists
       else true) = true := by
  unfold firstMissingWordlist
  by_cases h : truthyL args.wordlist_files
  · simp [h, List.find?_eq_none, List.all_eq_true]
  · simp [h]

theorem validation_eq_none_iff (env : Env) (args : Args) (hm : mutualOk args = true) :
    validation env args = none ↔ referencedFilesExist env args = true := by
  simp only [mutualOk, Bool.and_eq_true, Bool.not_eq_true'] at hm
  obtain ⟨h1, h2⟩ := hm
  unfold validation referencedFilesExist
  rw [h1, h2]
  cases hw : firstMissingWordlist env args with
  | some f =>
    have : ¬ ((if truthyL args.wordlist_files then
        (args.wordlist_files.getD []).all env.path_exists else true) = true) := by
      intro hc
      rw [← firstMissingWordlist_eq_none env args] at hc
      rw [hw] at hc
      exact Option.some_ne_none f hc
    simp only [Bool.and_eq_true]
    constructor
    · intro hc
      simp at hc
    · intro hc
      exact absurd hc.1.1.1 this
  | none =>
    have hwall : (if truthyL args.wordlist_files then
        (args.wordlist_files.getD []).all env.path_exists else true) = true :=
      (firstMissingWordlist_eq_none env args).mp hw
    simp only [hwall, Bool.true_and]
    by_cases hu : truthyS args.user_file && !env.path_exists (optS args.user_file)
    · simp only [hu, if_true]
      simp only [Bool.and_eq_true, Bool.not_eq_true'] at hu
      simp [hu.1, hu.2]
    · simp only [hu, if_false]
      have hu' : (!truthyS args.user_file || env.path_exists (optS args.user_file)) = true := by
        revert hu
        cases truthyS args.user_file <;> cases env.path_exists (optS args.user_file) <;> simp
      rw [hu']
      by_cases hp : truthyS args.password_file && !env.path_exists (optS args.password_file)
      · simp only [hp, if_true]
        simp only [Bool.and_eq_true, Bool.not_eq_true'] at hp
        simp [hp.1, hp.2]
      · simp only [hp, if_false]
        have hp' : (!truthyS args.password_file || env.path_exists (optS args.password_file)) = true := by
          revert hp
          cases truthyS args.password_file <;> cases env.path_exists (optS args.password_file) <;> simp
        rw [hp']
        by_cases hc : truthyS args.combo_file && !env.path_exists (optS args.combo_file)
        · simp only [hc, if_true]
          simp only [Bool.and_eq_true, Bool.not_eq_true'] at hc
          simp [hc.1, hc.2]
        · simp only [hc, if_false]
          have hc' : (!truthyS args.combo_file || env.path_exists (optS args.combo_file)) = true := by
            revert hc
            cases truthyS args.combo_file <;> cases env.path_exists (optS args.combo_file) <;> simp
          simp [hc']

theorem validation_of_missing (env : Env) (args : Args) (hm : mutualOk args = true)
    (hnf : referencedFilesExist env args = false) :
    ∃ f, referencedFile args f ∧ env.path_exists f = false ∧
      (validation env args = some (.fileNotFoundError (wordlistMsg f)) ∨
       validation env args = some (.fileNotFoundError (userFileMsg f)) ∨
       validation env args = some (.fileNotFoundError (passwordFileMsg f)) ∨
       validation env args = some (.fileNotFoundError (comboFileMsg f))) := by
  simp only [mutualOk, Bool.and_eq_true, Bool.not_eq_true'] at hm
  obtain ⟨h1, h2⟩ := hm
  cases hw : firstMissingWordlist env args with
  | some f =>
    have htL : truthyL args.wordlist_files = true := by
      cases h : truthyL args.wordlist_files
      · unfold firstMissingWordlist at hw
        rw [h] at hw
        simp at hw
      · rfl
    have hfind : (args.wordlist_files.getD []).find? (fun f => !env.path_exists f) = some f := by
      unfold firstMissingWordlist at hw
      rw [htL] at hw
      simpa using hw
    have hmem : f ∈ args.wordlist_files.getD [] := List.mem_of_find?_eq_some hfind
    have hmiss : env.path_exists f = false := by
      have := List.find?_some hfind
      simpa using this
    refine ⟨f, Or.inl ⟨htL, hmem⟩, hmiss, Or.inl ?_⟩
    unfold validation
    rw [h1, h2, hw]
    simp
  | none =>
    have hwall : (if truthyL args.wordlist_files then
        (args.wordlist_files.getD []).all env.path_exists else true) = true :=
      (firstMissingWordlist_eq_none env args).mp hw
    by_cases hu : (truthyS args.user_file && !env.path_exists (optS args.user_file)) = true
    · have hu' := hu
      simp only [Bool.and_eq_true, Bool.not_eq_true'] at hu'
      refine ⟨optS args.user_file, Or.inr (Or.inl ⟨hu'.1, rfl⟩), hu'.2, Or.inr (Or.inl ?_)⟩
      unfold validation
      rw [h1, h2, hw, hu]
      simp
    · have hu' : (!truthyS args.user_file || env.path_exists (optS args.user_file)) = true := by
        revert hu
        cases truthyS args.user_file <;> cases env.path_exists (optS args.user_file) <;> simp
      have huf : (truthyS args.user_file && !env.path_exists (optS args.user_file)) = false := by
        revert hu
        cases truthyS args.user_file && !env.path_exists (optS args.user_file) <;> simp
      by_cases hp : (truthyS args.password_file && !env.path_exists (optS args.password_file)) = true
      · have hp' := hp
        simp only [Bool.and_eq_true, Bool.not_eq_true'] at hp'
        refine ⟨optS args.password_file, Or.inr (Or.inr (Or.inl ⟨hp'.1, rfl⟩)), hp'.2,
          Or.inr (Or.inr (Or.inl ?_))⟩
        unfold validation
        rw [h1, h2, hw, huf, hp]
        simp
      · have hp' : (!truthyS args.password_file || env.path_exists (optS args.password_file)) = true := by
          revert hp
          cases truthyS args.password_file <;> cases env.path_exists (optS args.password_file) <;> simp
        have hpf : (truthyS args.password_file && !env.path_exists (optS args.password_file)) = false := by
          revert hp
          cases truthyS args.password_file && !env.path_exists (optS args.password_file) <;> simp
        by_cases hc : (truthyS args.combo_file && !env.path_exists (optS args.combo_file)) = true
        · have hc' := hc
          simp only [Bool.and_eq_true, Bool.not_eq_true'] at hc'
          refine ⟨optS args.combo_file, Or.inr (Or.inr (Or.inr ⟨hc'.1, rfl⟩)), hc'.2,
            Or.inr (Or.inr (Or.inr ?_))⟩
          unfold validation
          rw [h1, h2, hw, huf, hpf, hc]
          simp
        · exfalso
          have hc' : (!truthyS args.combo_file || env.path_exists (optS args.combo_file)) = true := by
            revert hc
            cases truthyS args.combo_file <;> cases env.path_exists (optS args.combo_file) <;> simp
          have : referencedFilesExist env args = true := by
            unfold referencedFilesExist
            rw [hwall, hu', hp', hc']
            rfl
          rw [this] at hnf
          simp at hnf

theorem configureLogging_mem_afterOutputDir (env : Env) (args : Args) (wd : String) (l : Nat)
    (h : Event.configureLogging l ∈ (afterOutputDir env args wd).1) :
    args.print_commands = false ∧ l = log_level args := by
  unfold afterOutputDir at h
  split at h
  · simp at h
  · split at h
    · simp at h
    · split at h
      · simp at h
      · simp at h
        refine ⟨by simp_all, h⟩

theorem consoleLoop_mem_afterOutputDir (env : Env) (args : Args) (wd : String)
    (h : Event.consoleLoop ∈ (afterOutputDir env args wd).1) :
    args.print_commands = false := by
  unfold afterOutputDir at h
  split at h
  · simp at h
  · split at h
    · simp at h
    · split at h
      · simp at h
      · simp_all

theorem mem_mainBody_of_mem_tempBody (env : Env) (args : Args) (x : Event)
    (hpriv : env.euid = 0 ∨ args.print_commands = true)
    (hlist : args.list = false)
    (h : x ∈ (tempBody env args).1) :
    x ∈ (mainBody env args).1 := by
  have hcond : ((env.euid != 0) && !args.print_commands) = false := by
    rcases hpriv with h' | h' <;> simp [h']
  unfold mainBody
  rw [hcond, hlist]
  simp [h]

theorem mem_tempBody_cases (env : Env) (args : Args) (x : Event)
    (h : x ∈ (tempBody env args).1) :
    (∃ d, x = Event.printStderr (outputDirMsg d)) ∨
      x ∈ (afterOutputDir env args (working_dir env args)).1 := by
  unfold tempBody working_dir at *
  cases hod : args.output_dir with
  | none =>
    rw [hod] at h
    exact Or.inr h
  | some d =>
    rw [hod] at h
    by_cases hd : d = ""
    · simp only [hd, if_true] at h ⊢
      simpa using Or.inr h
    · simp only [hd, if_false] at h ⊢
      by_cases hdir : env.isdir d
      · simp only [hdir, Bool.not_true, Bool.false_eq_true, if_false] at h
        exact Or.inr h
      · have : env.isdir d = false := by simp [hdir]
        rw [this] at h
        simp at h
        exact Or.inl ⟨d, h⟩

def argsUserConflict : Args :=
  { workspace := "ws", user := some "alice", user_file := some "users.txt" }

def argsPrint : Args := { workspace := "ws", print_commands := true }

def argsList : Args := { workspace := "ws", list := true }

def argsDebug : Args := { workspace := "ws", debug := true }

/-- Claim C1, as stated, is false at this input: with `--user` and
`--user-file` both given (and everything else valid), the `ValueError` of the
validation block escapes to the outermost handler, yet `kiscollectMain`
returns exit status 0, not a non-zero status — after
`traceback.print_exc(file=sys.stderr)` the script simply falls off the end. -/
theorem C1_counterexample :
    (mainBody envRoot argsUserConflict).2 =
        Outcome.raised (PyExc.valueError userExclusionMsg) ∧
      (kiscollectMain envRoot argsUserConflict).2 = 0 := by
  constructor <;> rfl

/-- Claim C1 (amended): for every invocation in which an unanticipated
exception escapes the top-level control flow, the exception is caught at the
outermost handler and its full traceback is emitted as a diagnostic, after
which the process exits with status 0 — the handler does not set a non-zero
exit status. -/
theorem C1_caught_traceback_exit_zero (env : Env) (args : Args) (e : PyExc)
    (h : (mainBody env args).2 = Outcome.raised e) :
    (kiscollectMain env args).1 = (mainBody env args).1 ++ [Event.printTraceback e] ∧
      (kiscollectMain env args).2 = 0 := by
  simp [kiscollectMain, h]

theorem C1_caught_traceback_exit_zero_witness :
    (kiscollectMain envRoot argsUserConflict).1 =
        (mainBody envRoot argsUserConflict).1 ++
          [Event.printTraceback (PyExc.valueError userExclusionMsg)] ∧
      (kiscollectMain envRoot argsUserConflict).2 = 0 :=
  C1_caught_traceback_exit_zero envRoot argsUserConflict _ (by decide)

/-- Claim C2: when the effective user is not root and `--print-commands` is
absent, the only effect is the privilege-requirement message on stderr and the
body ends in `sys.exit(1)` — no temporary directory, no workspace lookup, no
validation, no scheduling; and when `--print-commands` is given, the run is
identical to the same run as root, i.e. the privilege check is skipped. -/
theorem C2_privilege_check (env : Env) (args : Args) :
    (env.euid ≠ 0 → args.print_commands = false →
      mainBody env args = ([Event.printStderr (privilegeMsg env.argv0)], Outcome.exited 1)) ∧
    (args.print_commands = true →
      mainBody env args = mainBody { env with euid := 0 } args) := by
  constructor
  · intro h1 h2
    have hcond : ((env.euid != 0) && !args.print_commands) = true := by
      simp [h1, h2]
    unfold mainBody
    rw [hcond]
    simp
  · intro h
    unfold mainBody
    simp only [h, Bool.not_true, Bool.and_false]
    rfl

theorem C2_privilege_check_witness :
    mainBody envUser argsBase =
        ([Event.printStderr (privilegeMsg envUser.argv0)], Outcome.exited 1) ∧
      mainBody envUser argsPrint = mainBody { envUser with euid := 0 } argsPrint :=
  ⟨(C2_privilege_check envUser argsBase).1 (by decide) rfl,
   (C2_privilege_check envUser argsPrint).2 rfl⟩

/-- Claim C9: `--list` is handled after the privilege check, so a non-root
`--list` invocation without `--print-commands` gets only the privilege error
and never prints the workspace list; and when `--list` does run, the body
prints the workspaces and exits via `sys.exit(1)`, so the process exit status
is 1 even though no error occurred. -/
theorem C9_list_after_privilege (env : Env) (args : Args) :
    (env.euid ≠ 0 → args.print_commands = false → args.list = true →
      mainBody env args = ([Event.printStderr (privilegeMsg env.argv0)], Outcome.exited 1)) ∧
    ((env.euid = 0 ∨ args.print_commands = true) → args.list = true →
      mainBody env args = ([Event.printWorkspaces], Outcome.exited 1) ∧
        (kiscollectMain env args).2 = 1) := by
  constructor
  · intro h1 h2 _
    have hcond : ((env.euid != 0) && !args.print_commands) = true := by
      simp [h1, h2]
    unfold mainBody
    rw [hcond]
    simp
  · intro hpriv hlist
    have hcond : ((env.euid != 0) && !args.print_commands) = false := by
      rcases hpriv with h | h <;> simp [h]
    have hmb : mainBody env args = ([Event.printWorkspaces], Outcome.exited 1) := by
      unfold mainBody
      rw [hcond, hlist]
      simp
    refine ⟨hmb, ?_⟩
    simp [kiscollectMain, hmb]

theorem C9_list_after_privilege_witness :
    mainBody envUser argsList =
        ([Event.printStderr (privilegeMsg envUser.argv0)], Outcome.exited 1) ∧
      (mainBody envRoot argsList = ([Event.printWorkspaces], Outcome.exited 1) ∧
        (kiscollectMain envRoot argsList).2 = 1) :=
  ⟨(C9_list_after_privilege envUser argsList).1 (by decide) rfl rfl,
   (C9_list_after_privilege envRoot argsList).2 (Or.inl rfl) rfl⟩

/-- Claim C10: the logging level follows a fixed precedence — DEBUG (10) when
`--debug` is set regardless of `--analyze`, otherwise WARNING (30) when
`--analyze` is set, otherwise INFO (20) — and the log file is configured only
when `--print-commands` is absent (and then exactly at that level). -/
theorem C10_log_level (env : Env) (args : Args) (l : Nat) :
    (Event.configureLogging l ∈ (mainBody env args).1 →
      args.print_commands = false ∧ l = log_level args) ∧
    (args.debug = true → log_level args = 10) ∧
    (args.debug = false → args.analyze = true → log_level args = 30) ∧
    (args.debug = false → args.analyze = false → log_level args = 20) := by
  refine ⟨?_, ?_, ?_, ?_⟩
  · intro h
    unfold mainBody at h
    split at h
    · simp at h
    · split at h
      · simp at h
      · simp only [List.cons_append, List.mem_cons, List.mem_append,
          List.mem_singleton] at h
        rcases h with h | h | h
        · exact absurd h (by simp)
        · rcases mem_tempBody_cases env args _ h with ⟨d, hd⟩ | h'
          · exact absurd hd (by simp)
          · exact configureLogging_mem_afterOutputDir env args _ l h'
        · exact absurd h (by simp)
  · intro h
    simp [log_level, h]
  · intro h1 h2
    simp [log_level, h1, h2]
  · intro h1 h2
    simp [log_level, h1, h2]

theorem C10_log_level_witness :
    (argsDebug.print_commands = false ∧ 10 = log_level argsDebug) ∧
      log_level argsDebug = 10 ∧
      log_level { argsBase with analyze := true } = 30 ∧
      log_level argsBase = 20 :=
  ⟨(C10_log_level envRoot argsDebug 10).1 (by decide),
   (C10_log_level envRoot argsDebug 10).2.1 rfl,
   (C10_log_level envRoot { argsBase with analyze := true } 30).2.2.1 rfl rfl,
   (C10_log_level envRoot argsBase 20).2.2.2 rfl rfl⟩

theorem afterOutputDir_of_validation_some (env : Env) (args : Args) (wd : String) (e : PyExc)
    (hws : get_workspace env args.workspace = true)
    (hv : validation env args = some e) :
    afterOutputDir env args wd = ([Event.producerInit wd], Outcome.raised e) := by
  unfold afterOutputDir
  rw [hws, hv]
  simp

theorem afterOutputDir_of_validation_none (env : Env) (args : Args) (wd : String)
    (hws : get_workspace env args.workspace = true)
    (hv : validation env args = none) :
    afterOutputDir env args wd =
      (if args.print_commands then [Event.producerInit wd, Event.producerStartJoin]
       else [Event.producerInit wd, Event.configureLogging (log_level args),
             Event.consoleLoop], Outcome.finished) := by
  unfold afterOutputDir
  rw [hws, hv]
  cases h : args.print_commands <;> simp [h]

theorem afterOutputDir_of_no_workspace (env : Env) (args : Args) (wd : String)
    (hws : get_workspace env args.workspace = false) :
    afterOutputDir env args wd =
      ([Event.producerInit wd, Event.printStderr (workspaceMsg args.workspace)],
       Outcome.exited 1) := by
  unfold afterOutputDir
  rw [hws]
  rfl

theorem producerInit_mem_afterOutputDir (env : Env) (args : Args) (wd : String) :
    Event.producerInit wd ∈ (afterOutputDir env args wd).1 := by
  unfold afterOutputDir
  split
  · simp
  · split
    · simp
    · split <;> simp

theorem consoleLoop_mem_mainBody (env : Env) (args : Args)
    (h : Event.consoleLoop ∈ (mainBody env args).1) :
    args.print_commands = false := by
  unfold mainBody at h
  split at h
  · simp at h
  · split at h
    · simp at h
    · simp only [List.cons_append, List.mem_cons, List.mem_append,
        List.mem_singleton] at h
      rcases h with h | h | h
      · exact absurd h (by simp)
      · rcases mem_tempBody_cases env args _ h with ⟨d, hd⟩ | h'
        · exact absurd hd (by simp)
        · exact consoleLoop_mem_afterOutputDir env args _ h'
      · exact absurd h (by simp)

theorem configureLogging_mem_mainBody (env : Env) (args : Args) (l : Nat)
    (h : Event.configureLogging l ∈ (mainBody env args).1) :
    args.print_commands = false ∧ l = log_level args := by
  unfold mainBody at h
  split at h
  · simp at h
  · split at h
    · simp at h
    · simp only [List.cons_append, List.mem_cons, List.mem_append,
        List.mem_singleton] at h
      rcases h with h | h | h
      · exact absurd h (by simp)
      · rcases mem_tempBody_cases env args _ h with ⟨d, hd⟩ | h'
        · exact absurd hd (by simp)
        · exact configureLogging_mem_afterOutputDir env args _ l h'
      · exact absurd h (by simp)

/-- Claim C3: under an invocation that reaches the validation block (privilege
and `--list` gates passed, valid `-o`, known workspace), supplying both
`--user` and `--user-file`, or both `--password` and `--password-file`, makes
the body raise a `ValueError`, and neither the print-mode producer run nor the
interactive console (the two paths that produce or execute Commands) is ever
reached. -/
theorem C3_mutual_exclusion (env : Env) (args : Args)
    (hpriv : env.euid = 0 ∨ args.print_commands = true)
    (hlist : args.list = false)
    (hout : outputDirOk env args = true)
    (hws : get_workspace env args.workspace = true)
    (hconf : (truthyS args.user = true ∧ truthyS args.user_file = true) ∨
      (truthyS args.password = true ∧ truthyS args.password_file = true)) :
    (∃ m, (mainBody env args).2 = Outcome.raised (PyExc.valueError m)) ∧
      Event.producerStartJoin ∉ (mainBody env args).1 ∧
      Event.consoleLoop ∉ (mainBody env args).1 := by
  have hv : ∃ m, validation env args = some (.valueError m) := by
    unfold validation
    rcases hconf with ⟨h1, h2⟩ | ⟨h1, h2⟩
    · exact ⟨userExclusionMsg, by simp [h1, h2]⟩
    · by_cases hu : (truthyS args.user && truthyS args.user_file) = true
      · exact ⟨userExclusionMsg, by simp [hu]⟩
      · have hu' : (truthyS args.user && truthyS args.user_file) = false := by
          revert hu
          cases truthyS args.user && truthyS args.user_file <;> simp
        exact ⟨passwordExclusionMsg, by rw [hu']; simp [h1, h2]⟩
  obtain ⟨m, hm⟩ := hv
  have hmb : mainBody env args =
      (Event.tempDirCreated :: [Event.producerInit (working_dir env args)]
         ++ [Event.tempDirRemoved],
       Outcome.raised (PyExc.valueError m)) := by
    rw [mainBody_reach env args hpriv hlist hout,
      afterOutputDir_of_validation_some env args _ _ hws hm]
  rw [hmb]
  exact ⟨⟨m, rfl⟩, by simp, by simp⟩

def argsPasswordConflict : Args :=
  { workspace := "ws", password := some "secret", password_file := some "pw.txt" }

theorem C3_mutual_exclusion_witness :
    ((∃ m, (mainBody envRoot argsPasswordConflict).2 = Outcome.raised (PyExc.valueError m)) ∧
      Event.producerStartJoin ∉ (mainBody envRoot argsPasswordConflict).1 ∧
      Event.consoleLoop ∉ (mainBody envRoot argsPasswordConflict).1) :=
  C3_mutual_exclusion envRoot argsPasswordConflict (Or.inl rfl) rfl (by decide) (by decide)
    (Or.inr ⟨by decide, by decide⟩)

/-- Claim C4: under an invocation that reaches the file-existence checks
(privilege and `--list` gates passed, valid `-o`, known workspace, both
mutual-exclusion checks passing), if some referenced wordlist, user, password
or combo file does not exist, the body raises a `FileNotFoundError` whose
message is the source format string with that very file name interpolated,
before any producer run or console loop; and if every referenced file exists,
the body runs to completion. -/
theorem C4_file_existence (env : Env) (args : Args)
    (hpriv : env.euid = 0 ∨ args.print_commands = true)
    (hlist : args.list = false)
    (hout : outputDirOk env args = true)
    (hws : get_workspace env args.workspace = true)
    (hm : mutualOk args = true) :
    (referencedFilesExist env args = false →
      ∃ f, referencedFile args f ∧ env.path_exists f = false ∧
        ((mainBody env args).2 = Outcome.raised (PyExc.fileNotFoundError (wordlistMsg f)) ∨
         (mainBody env args).2 = Outcome.raised (PyExc.fileNotFoundError (userFileMsg f)) ∨
         (mainBody env args).2 = Outcome.raised (PyExc.fileNotFoundError (passwordFileMsg f)) ∨
         (mainBody env args).2 = Outcome.raised (PyExc.fileNotFoundError (comboFileMsg f))) ∧
        Event.producerStartJoin ∉ (mainBody env args).1 ∧
        Event.consoleLoop ∉ (mainBody env args).1) ∧
    (referencedFilesExist env args = true →
      (mainBody env args).2 = Outcome.finished) := by
  constructor
  · intro hnf
    obtain ⟨f, href, hmiss, hv⟩ := validation_of_missing env args hm hnf
    have hcase : ∃ e, validation env args = some (PyExc.fileNotFoundError e) ∧
        (e = wordlistMsg f ∨ e = userFileMsg f ∨ e = passwordFileMsg f ∨ e = comboFileMsg f) := by
      rcases hv with h | h | h | h
      · exact ⟨wordlistMsg f, h, Or.inl rfl⟩
      · exact ⟨userFileMsg f, h, Or.inr (Or.inl rfl)⟩
      · exact ⟨passwordFileMsg f, h, Or.inr (Or.inr (Or.inl rfl))⟩
      · exact ⟨comboFileMsg f, h, Or.inr (Or.inr (Or.inr rfl))⟩
    obtain ⟨e, he, hwhich⟩ := hcase
    have hmb : mainBody env args =
        (Event.tempDirCreated :: [Event.producerInit (working_dir env args)]
           ++ [Event.tempDirRemoved],
         Outcome.raised (PyExc.fileNotFoundError e)) := by
      rw [mainBody_reach env args hpriv hlist hout,
        afterOutputDir_of_validation_some env args _ _ hws he]
    refine ⟨f, href, hmiss, ?_, ?_, ?_⟩
    · rw [hmb]
      rcases hwhich with h | h | h | h
      · exact Or.inl (by rw [h])
      · exact Or.inr (Or.inl (by rw [h]))
      · exact Or.inr (Or.inr (Or.inl (by rw [h])))
      · exact Or.inr (Or.inr (Or.inr (by rw [h])))
    · rw [hmb]
      simp
    · rw [hmb]
      simp
  · intro hex
    have hv : validation env args = none := (validation_eq_none_iff env args hm).mpr hex
    rw [mainBody_reach env args hpriv hlist hout,
      afterOutputDir_of_validation_none env args _ hws hv]

def envNoFiles : Env :=
  { envRoot with path_exists := fun _ => false }

def argsWordlist : Args := { workspace := "ws", wordlist_files := some ["wl.txt"] }

theorem C4_file_existence_witness :
    (∃ f, referencedFile argsWordlist f ∧ envNoFiles.path_exists f = false ∧
        ((mainBody envNoFiles argsWordlist).2 =
            Outcome.raised (PyExc.fileNotFoundError (wordlistMsg f)) ∨
         (mainBody envNoFiles argsWordlist).2 =
            Outcome.raised (PyExc.fileNotFoundError (userFileMsg f)) ∨
         (mainBody envNoFiles argsWordlist).2 =
            Outcome.raised (PyExc.fileNotFoundError (passwordFileMsg f)) ∨
         (mainBody envNoFiles argsWordlist).2 =
            Outcome.raised (PyExc.fileNotFoundError (comboFileMsg f))) ∧
        Event.producerStartJoin ∉ (mainBody envNoFiles argsWordlist).1 ∧
        Event.consoleLoop ∉ (mainBody envNoFiles argsWordlist).1) ∧
      (mainBody envRoot argsWordlist).2 = Outcome.finished :=
  ⟨(C4_file_existence envNoFiles argsWordlist (Or.inl rfl) rfl (by decide) (by decide)
      (by decide)).1 (by decide),
   (C4_file_existence envRoot argsWordlist (Or.inl rfl) rfl (by decide) (by decide)
      (by decide)).2 (by decide)⟩

/-- Claim C5: an invocation naming a workspace that is not in the catalogue
(privilege and `--list` gates passed, valid `-o`) terminates via `sys.exit(1)`
before any producer run or console loop, with a user-facing diagnostic naming
the unknown workspace on stderr (the diagnostic of `Engine.get_workspace` is
modelled from the spec, as `database/utils` is outside src/). -/
theorem C5_unknown_workspace (env : Env) (args : Args)
    (hpriv : env.euid = 0 ∨ args.print_commands = true)
    (hlist : args.list = false)
    (hout : outputDirOk env args = true)
    (hws : get_workspace env args.workspace = false) :
    (mainBody env args).2 = Outcome.exited 1 ∧
      Event.printStderr (workspaceMsg args.workspace) ∈ (mainBody env args).1 ∧
      Event.producerStartJoin ∉ (mainBody env args).1 ∧
      Event.consoleLoop ∉ (mainBody env args).1 ∧
      (kiscollectMain env args).2 = 1 := by
  have hmb : mainBody env args =
      (Event.tempDirCreated :: [Event.producerInit (working_dir env args),
         Event.printStderr (workspaceMsg args.workspace)] ++ [Event.tempDirRemoved],
       Outcome.exited 1) := by
    rw [mainBody_reach env args hpriv hlist hout,
      afterOutputDir_of_no_workspace env args _ hws]
  refine ⟨by rw [hmb], by rw [hmb]; simp, by rw [hmb]; simp, by rw [hmb]; simp, ?_⟩
  simp [kiscollectMain, hmb]

def argsBadWorkspace : Args := { workspace := "nope" }

theorem C5_unknown_workspace_witness :
    (mainBody envRoot argsBadWorkspace).2 = Outcome.exited 1 ∧
      Event.printStderr (workspaceMsg argsBadWorkspace.workspace) ∈
        (mainBody envRoot argsBadWorkspace).1 ∧
      Event.producerStartJoin ∉ (mainBody envRoot argsBadWorkspace).1 ∧
      Event.consoleLoop ∉ (mainBody envRoot argsBadWorkspace).1 ∧
      (kiscollectMain envRoot argsBadWorkspace).2 = 1 :=
  C5_unknown_workspace envRoot argsBadWorkspace (Or.inl rfl) rfl (by decide) (by decide)

/-- Claim C6: the `--restart` option accepts one or more values drawn
exclusively from the set containing failed, terminated and completed; any
value outside the set (such as pending or running) makes argparse reject the
invocation before any execution starts. -/
theorem C6_restart_choices :
    restartChoices = ["failed", "terminated", "completed"] ∧
      (∀ vs v, v ∈ vs → restartChoices.contains v = false → restartAccepted vs = false) ∧
      (∀ vs, vs ≠ ([] : List String) → (∀ v ∈ vs, restartChoices.contains v = true) →
        restartAccepted vs = true) ∧
      restartAccepted ["pending"] = false ∧
      restartAccepted ["running"] = false := by
  refine ⟨rfl, ?_, ?_, by decide, by decide⟩
  · intro vs v hmem hnc
    have hall : vs.all (fun v => restartChoices.contains v) = false :=
      List.all_eq_false.mpr ⟨v, hmem, by simpa using hnc⟩
    unfold restartAccepted
    rw [hall, Bool.and_false]
  · intro vs hne hall
    unfold restartAccepted
    rw [List.all_eq_true.mpr hall, Bool.and_true]
    simp [hne]

theorem C6_restart_choices_witness :
    restartAccepted ["pending"] = false ∧ restartAccepted ["failed", "completed"] = true :=
  ⟨(C6_restart_choices).2.2.2.1,
   (C6_restart_choices).2.2.1 ["failed", "completed"] (by decide) (by decide)⟩

/-- Claim C7: with `--print-commands`, the run never enters the interactive
console and never configures the log file (these hold for every invocation),
and, when the run reaches the start logic, print mode runs the producer
(start and join) while its absence enters the console loop instead. -/
theorem C7_print_mode (env : Env) (args : Args) :
    (args.print_commands = true →
      Event.consoleLoop ∉ (mainBody env args).1 ∧
        ∀ l, Event.configureLogging l ∉ (mainBody env args).1) ∧
    ((env.euid = 0 ∨ args.print_commands = true) → args.list = false →
      outputDirOk env args = true → get_workspace env args.workspace = true →
      validation env args = none →
      (args.print_commands = true →
        Event.producerStartJoin ∈ (mainBody env args).1) ∧
      (args.print_commands = false →
        Event.consoleLoop ∈ (mainBody env args).1)) := by
  constructor
  · intro hpc
    constructor
    · intro h
      have := consoleLoop_mem_mainBody env args h
      rw [hpc] at this
      exact Bool.noConfusion this
    · intro l h
      have := (configureLogging_mem_mainBody env args l h).1
      rw [hpc] at this
      exact Bool.noConfusion this
  · intro hpriv hlist hout hws hv
    have hmb : mainBody env args =
        (Event.tempDirCreated ::
           (if args.print_commands then
              [Event.producerInit (working_dir env args), Event.producerStartJoin]
            else
              [Event.producerInit (working_dir env args),
               Event.configureLogging (log_level args), Event.consoleLoop])
           ++ [Event.tempDirRemoved],
         Outcome.finished) := by
      rw [mainBody_reach env args hpriv hlist hout,
        afterOutputDir_of_validation_none env args _ hws hv]
    constructor
    · intro hpc
      rw [hmb, hpc]
      simp
    · intro hpc
      rw [hmb, hpc]
      simp

theorem C7_print_mode_witness :
    (Event.consoleLoop ∉ (mainBody envRoot argsPrint).1 ∧
        ∀ l, Event.configureLogging l ∉ (mainBody envRoot argsPrint).1) ∧
      Event.producerStartJoin ∈ (mainBody envRoot argsPrint).1 ∧
      Event.consoleLoop ∈ (mainBody envRoot argsBase).1 :=
  ⟨(C7_print_mode envRoot argsPrint).1 rfl,
   ((C7_print_mode envRoot argsPrint).2 (Or.inl rfl) rfl (by decide) (by decide)
      (by decide)).1 rfl,
   ((C7_print_mode envRoot argsBase).2 (Or.inl rfl) rfl (by decide) (by decide)
      (by decide)).2 rfl⟩

/-- Claim C8, as stated, is false at this input: a non-root invocation
without `--print-commands` exits at the privilege gate, and no temporary
directory is ever created for it. -/
theorem C8_counterexample :
    Event.tempDirCreated ∉ (mainBody envUser argsBase).1 := by
  decide

/-- Claim C8 (amended): for every invocation that passes the privilege gate
and does not use `--list`, a process-lifetime temporary directory is created
and removed on exit; when `-o` names an existing directory, that directory is
the working directory handed to `producer.init` instead of the temporary one;
when `-o` names a non-existent directory, the body prints an error naming the
directory to stderr and exits via `sys.exit(1)` before calling
`producer.init`; and without `-o` the temporary directory itself is the
working directory. -/
theorem C8_working_dir (env : Env) (args : Args)
    (hpriv : env.euid = 0 ∨ args.print_commands = true)
    (hlist : args.list = false) :
    Event.tempDirCreated ∈ (mainBody env args).1 ∧
      Event.tempDirRemoved ∈ (mainBody env args).1 ∧
      (∀ d, args.output_dir = some d → d ≠ "" → env.isdir d = true →
        Event.producerInit d ∈ (mainBody env args).1) ∧
      (args.output_dir = none →
        Event.producerInit env.temp_dir ∈ (mainBody env args).1) ∧
      (∀ d, args.output_dir = some d → d ≠ "" → env.isdir d = false →
        (mainBody env args).2 = Outcome.exited 1 ∧
          Event.printStderr (outputDirMsg d) ∈ (mainBody env args).1 ∧
          ∀ w, Event.producerInit w ∉ (mainBody env args).1) := by
  have hcond : ((env.euid != 0) && !args.print_commands) = false := by
    rcases hpriv with h | h <;> simp [h]
  have hmb : mainBody env args =
      (Event.tempDirCreated :: (tempBody env args).1 ++ [Event.tempDirRemoved],
       (tempBody env args).2) := by
    unfold mainBody
    rw [hcond, hlist]
    simp
  refine ⟨by rw [hmb]; simp, by rw [hmb]; simp, ?_, ?_, ?_⟩
  · intro d hd hne hdir
    have hout : outputDirOk env args = true := by
      simp [outputDirOk, hd, hdir]
    have hwd : working_dir env args = d := by
      simp [working_dir, hd, hne]
    rw [mainBody_reach env args hpriv hlist hout, hwd]
    simp only [List.cons_append, List.mem_cons, List.mem_append, List.mem_singleton]
    exact Or.inr (Or.inl (producerInit_mem_afterOutputDir env args d))
  · intro hd
    have hout : outputDirOk env args = true := by
      simp [outputDirOk, hd]
    have hwd : working_dir env args = env.temp_dir := by
      simp [working_dir, hd]
    rw [mainBody_reach env args hpriv hlist hout, hwd]
    simp only [List.cons_append, List.mem_cons, List.mem_append, List.mem_singleton]
    exact Or.inr (Or.inl (producerInit_mem_afterOutputDir env args env.temp_dir))
  · intro d hd hne hdir
    have htb : tempBody env args = ([Event.printStderr (outputDirMsg d)], Outcome.exited 1) := by
      unfold tempBody
      rw [hd]
      simp [hne, hdir]
    rw [hmb, htb]
    refine ⟨rfl, by simp, by simp⟩

def envNoDirs : Env :=
  { envRoot with isdir := fun _ => false }

def argsOutDir : Args := { workspace := "ws", output_dir := some "/data" }

theorem C8_working_dir_witness :
    Event.producerInit "/data" ∈ (mainBody envRoot argsOutDir).1 ∧
      Event.producerInit envRoot.temp_dir ∈ (mainBody envRoot argsBase).1 ∧
      ((mainBody envNoDirs argsOutDir).2 = Outcome.exited 1 ∧
        Event.printStderr (outputDirMsg "/data") ∈ (mainBody envNoDirs argsOutDir).1 ∧
        ∀ w, Event.producerInit w ∉ (mainBody envNoDirs argsOutDir).1) :=
  ⟨(C8_working_dir envRoot argsOutDir (Or.inl rfl) rfl).2.2.1 "/data" rfl (by decide) rfl,
   (C8_working_dir envRoot argsBase (Or.inl rfl) rfl).2.2.2.1 rfl,
   (C8_working_dir envNoDirs argsOutDir (Or.inl rfl) rfl).2.2.2.2 "/data" rfl (by decide) rfl⟩

end KisCollect
